import Mathlib

/-!
Verification of the `central_groups` Ansible module
(`plugins/modules/central_groups.py`): a shallow embedding of its data
model, handlers, dispatcher and response classification, with theorems
about the specified behaviour.
-/

namespace CentralGroups

/-- A JSON-like value, the shape of the Python data the module manipulates:
`None`, booleans, integers, strings, lists and string-keyed dicts
(modelled as association lists in insertion order). -/
inductive Value where
  | null : Value
  | bool (b : Bool) : Value
  | int (n : Int) : Value
  | str (s : String) : Value
  | list (elems : List Value) : Value
  | dict (entries : List (String × Value)) : Value

/-- True exactly on `Value.null` (Python `None`). -/
def Value.isNull : Value → Bool
  | .null => true
  | _ => false

/-- True exactly on `Value.dict` entries (Python `dict` instances). -/
def Value.isDict : Value → Bool
  | .dict _ => true
  | _ => false

/-- Embedding of `remove_nulls(data)`: iterate over the dict's items, drop
entries whose value is `None`, and recurse into values that are dicts;
all other values (lists included) are kept as they are. -/
def remove_nulls : List (String × Value) → List (String × Value)
  | [] => []
  | (_, Value.null) :: rest => remove_nulls rest
  | (key, Value.dict d) :: rest => (key, Value.dict (remove_nulls d)) :: remove_nulls rest
  | (key, v) :: rest => (key, v) :: remove_nulls rest
termination_by data => sizeOf data
decreasing_by all_goals simp_wf <;> omega

/-- No entry of the dict (at any nesting depth through sub-dicts) has a
`null` value. -/
def no_null_entries : List (String × Value) → Bool
  | [] => true
  | (_, Value.null) :: _ => false
  | (_, Value.dict d) :: rest => no_null_entries d && no_null_entries rest
  | (_, _) :: rest => no_null_entries rest
termination_by data => sizeOf data
decreasing_by all_goals simp_wf <;> omega

/-- Headers returned by the external collaborator `CentralApi.get_headers`;
header construction is opaque to this module, so the model records the two
arguments the module passes in. -/
structure Headers where
  auth_required : Bool
  http_method : String
deriving DecidableEq, Repr

/-- Embedding of `central_api.get_headers(auth_required, http_method)`. -/
def get_headers (auth_required : Bool) (http_method : String) : Headers :=
  ⟨auth_required, http_method⟩

/-- The `{resp, code}`-shaped record every code path of the module returns:
either a canned validation error or the collaborator's HTTP result.
`code` is an `Option` so a transport failure with no status can be modelled;
the module itself only ever builds it with `code = 400`. -/
structure ApiResult where
  resp : Value
  code : Option Int

/-- One invocation of the HTTP client collaborator (`get`, `post`, `patch`
or `delete`), recorded so that theorems can count network calls. -/
structure HttpCall where
  method : String
  path : String
  headers : Headers
  data : Option Value

/-- The HTTP client collaborator (`CentralApi` from `central_http`): URL and
query-string building plus the four HTTP verbs, all external to this module
and therefore modelled as unconstrained functions. -/
structure CentralApi where
  get_url : String → List (String × Value) → String
  get_list_params : List String → String
  respond_get : String → Headers → ApiResult
  respond_post : String → Headers → Value → ApiResult
  respond_patch : String → Headers → Value → ApiResult
  respond_delete : String → Headers → ApiResult

/-- Embedding of `error_msg(method)`: the canned message for a missing
playbook parameter.  The source leaves `resp` unbound for any other
`method`, but every call site passes one of the four handled values, so the
fallback branch is unreachable from this module. -/
def error_msg (method : String) : ApiResult :=
  let resp :=
    if method == "create" || method == "update" then
      "Group name or Group attributes not present in the playbook"
    else if method == "delete" then
      "Group name to be deleted not present in the playbook"
    else if method == "clone" then
      "Group name or clone-from-group parameters not present in the playbook"
    else if method == "get" then
      "List of groups (group_list) not present in the playbook"
    else ""
  ⟨Value.str resp, some 400⟩

/-- Embedding of `get_groups(central_api, limit, offset)`: GET
`/configuration/v2/groups` with `limit`/`offset` query parameters.  The
second component of the result is the list of HTTP calls made. -/
def get_groups (api : CentralApi) (limit offset : Int) : ApiResult × List HttpCall :=
  let endpoint := "/configuration/v2/groups"
  let query_params := [("limit", Value.int limit), ("offset", Value.int offset)]
  let headers := get_headers false "get"
  let path := api.get_url endpoint query_params
  (api.respond_get path headers, [⟨"get", path, headers, none⟩])

/-- Embedding of `get_group_mode(central_api, group_list)`: the Python guard
is `if group_list is not None`, so an empty list still passes. -/
def get_group_mode (api : CentralApi) (group_list : Option (List String)) :
    ApiResult × List HttpCall :=
  match group_list with
  | some gl =>
    let groups := api.get_list_params gl
    let query_params := [("groups", Value.str groups)]
    let headers := get_headers false "get"
    let path := api.get_url "/configuration/v2/groups/template_info" query_params
    (api.respond_get path headers, [⟨"get", path, headers, none⟩])
  | none => (error_msg "get", [])

/-- Embedding of `clone(central_api, group_name, clone_from_group)`: the
Python guard `if group_name and clone_from_group is not None` requires a
truthy (non-`None`, non-empty) `group_name` and a non-`None`
`clone_from_group`; an empty `clone_from_group` string still passes. -/
def clone (api : CentralApi) (group_name clone_from_group : Option String) :
    ApiResult × List HttpCall :=
  match group_name, clone_from_group with
  | some gn, some cf =>
    if gn == "" then (error_msg "clone", [])
    else
      let path := "/configuration/v2/groups/clone"
      let data := Value.dict [("group", Value.str gn), ("clone_group", Value.str cf)]
      let headers := get_headers false "post"
      (api.respond_post path headers data, [⟨"post", path, headers, some data⟩])
  | _, _ => (error_msg "clone", [])

/-- The `template_info` sub-dict of `group_attributes`: the argument spec
declares `wired` and `wireless` as booleans defaulting to `False` with
`apply_defaults=True`, so both keys are always present. -/
structure TemplateInfo where
  wired : Bool
  wireless : Bool
deriving DecidableEq, Repr

/-- The `group_attributes` dict as delivered by the argument spec
(`apply_defaults=True`): `template_info` is always a dict of two booleans,
the remaining declared sub-options are present with value `None` when the
playbook omits them. -/
structure GroupAttributes where
  template_info : TemplateInfo
  architecture : Option String
  device_type : Option (List String)
  ap_role : Option String
  gw_role : Option String
  switch_type : Option (List String)
  monitor_mode : Option (List String)
  new_central : Option String
deriving DecidableEq, Repr

/-- A Python optional string as a JSON-like value (`None` or the string). -/
def opt_str_val : Option String → Value
  | none => Value.null
  | some s => Value.str s

/-- A Python optional list of strings as a JSON-like value. -/
def opt_str_list_val : Option (List String) → Value
  | none => Value.null
  | some l => Value.list (l.map Value.str)

/-- The `group_attributes` dict exactly as Python holds it (key order of the
argument spec, `None` for omitted sub-options): this is what `update_group`
transmits verbatim. -/
def GroupAttributes.to_value (ga : GroupAttributes) : Value :=
  Value.dict
    [("template_info", Value.dict
        [("wireless", Value.bool ga.template_info.wireless),
         ("wired", Value.bool ga.template_info.wired)]),
     ("architecture", opt_str_val ga.architecture),
     ("device_type", opt_str_list_val ga.device_type),
     ("ap_role", opt_str_val ga.ap_role),
     ("gw_role", opt_str_val ga.gw_role),
     ("switch_type", opt_str_list_val ga.switch_type),
     ("monitor_mode", opt_str_list_val ga.monitor_mode),
     ("new_central", opt_str_val ga.new_central)]

/-- The `data` dict literal of `create_group`, before `remove_nulls` is
applied: internal field names renamed to the external PascalCase schema,
including the `"MonitorOnly:"` key with its trailing colon. -/
def create_body (group_name : String) (ga : GroupAttributes) : List (String × Value) :=
  [("group", Value.str group_name),
   ("group_attributes", Value.dict
     [("template_info", Value.dict
        [("Wired", Value.bool ga.template_info.wired),
         ("Wireless", Value.bool ga.template_info.wireless)]),
      ("group_properties", Value.dict
        [("AllowedDevTypes", opt_str_list_val ga.device_type),
         ("Architecture", opt_str_val ga.architecture),
         ("ApNetworkRole", opt_str_val ga.ap_role),
         ("GwNetworkRole", opt_str_val ga.gw_role),
         ("AllowedSwitchTypes", opt_str_list_val ga.switch_type),
         ("MonitorOnly:", opt_str_list_val ga.monitor_mode),
         ("NewCentral", opt_str_val ga.new_central)])])]

/-- Embedding of `create_group(central_api, group_name, group_attributes)`:
POST `/configuration/v3/groups` with the renamed body, null-pruned by
`remove_nulls` just before sending.  The Python guard
`if group_name and group_attributes is not None` requires a truthy
`group_name` and a non-`None` `group_attributes`. -/
def create_group (api : CentralApi) (group_name : Option String)
    (group_attributes : Option GroupAttributes) : ApiResult × List HttpCall :=
  match group_name, group_attributes with
  | some gn, some ga =>
    if gn == "" then (error_msg "create", [])
    else
      let path := "/configuration/v3/groups"
      let data := Value.dict (remove_nulls (create_body gn ga))
      let headers := get_headers false "post"
      (api.respond_post path headers data, [⟨"post", path, headers, some data⟩])
  | _, _ => (error_msg "create", [])

/-- Embedding of `update_group(central_api, group_name, group_attributes)`:
PATCH `/configuration/v2/groups/{group_name}` with `group_attributes`
verbatim as the body, but with headers obtained via
`get_headers(False, "post")`. -/
def update_group (api : CentralApi) (group_name : Option String)
    (group_attributes : Option GroupAttributes) : ApiResult × List HttpCall :=
  match group_name, group_attributes with
  | some gn, some ga =>
    if gn == "" then (error_msg "update", [])
    else
      let path := "/configuration/v2/groups/" ++ gn
      let data := ga.to_value
      let headers := get_headers false "post"
      (api.respond_patch path headers data, [⟨"patch", path, headers, some data⟩])
  | _, _ => (error_msg "update", [])

/-- Embedding of `delete_group(central_api, group_name)`: DELETE
`/configuration/v1/groups/{group_name}`.  The Python guard is only
`if group_name is not None` (no truthiness check). -/
def delete_group (api : CentralApi) (group_name : Option String) :
    ApiResult × List HttpCall :=
  match group_name with
  | some gn =>
    let path := "/configuration/v1/groups/" ++ gn
    let headers := get_headers false "delete"
    (api.respond_delete path headers, [⟨"delete", path, headers, none⟩])
  | none => (error_msg "delete", [])

/-- The module's playbook parameters after argument parsing, with the
documented defaults for `limit` and `offset`. -/
structure Params where
  action : String
  group_name : Option String := none
  group_list : Option (List String) := none
  group_attributes : Option GroupAttributes := none
  clone_from_group : Option String := none
  limit : Int := 20
  offset : Int := 0

/-- Python's `action.lower()` on the ASCII action strings the module
compares against, mapping each character to lower case. -/
def py_lower (s : String) : String :=
  ⟨s.data.map Char.toLower⟩

/-- Helper for Python's `needle in hay` on lists of characters. -/
def contains_sub (hay needle : List Char) : Bool :=
  if needle.isPrefixOf hay then true
  else
    match hay with
    | [] => false
    | _ :: t => contains_sub t needle

/-- Python's substring containment `needle in hay` on strings, as used by
`main` in `if "get" not in module.params.get('action')`. -/
def py_in (needle hay : String) : Bool :=
  contains_sub hay.data needle.data

/-- How `main` (and `api_call`'s unsupported-action branch) terminates:
`module.exit_json` or `module.fail_json` with the keyword arguments the
source passes.  `fail_msg` is the `fail_json(changed=False, msg=...)` call
of `api_call`, which carries no `response_code`. -/
inductive ModuleExit where
  | exit_json (changed : Bool) (msg : Value) (response_code : Option Int)
  | fail_json (changed : Bool) (msg : Value) (response_code : Option Int)
  | fail_msg (changed : Bool) (msg : String)

/-- Embedding of `api_call(module)`: lower-case the action, dispatch to the
matching handler, and fail with "Unsupported action provided in playbook"
for anything else (`fail_json` terminates the module, modelled as
`Except.error`). -/
def api_call (api : CentralApi) (p : Params) :
    Except ModuleExit (ApiResult × List HttpCall) :=
  let action := py_lower p.action
  if action == "get_groups" then .ok (get_groups api p.limit p.offset)
  else if action == "get_group_mode" then .ok (get_group_mode api p.group_list)
  else if action == "clone" then .ok (clone api p.group_name p.clone_from_group)
  else if action == "create" then .ok (create_group api p.group_name p.group_attributes)
  else if action == "update" then .ok (update_group api p.group_name p.group_attributes)
  else if action == "delete" then .ok (delete_group api p.group_name)
  else .error (ModuleExit.fail_msg false "Unsupported action provided in playbook")

/-- The `json.loads` attempt of `main`: when `resp` is a string, replace it
with the parsed value if parsing succeeds; a `ValueError` (parse failure,
`jsonLoads _ = none`) or `TypeError` (`resp` not a string) leaves `resp`
unchanged.  The JSON parser is the Python standard library, external to the
module, so it is passed in as a function. -/
def parse_resp (jsonLoads : String → Option Value) : Value → Value
  | Value.str s =>
    match jsonLoads s with
    | some v => v
    | none => Value.str s
  | v => v

/-- Python's `result['code'] and result['code'] in codes`: `None` and `0`
are falsy, otherwise list membership decides. -/
def code_in (code : Option Int) (codes : List Int) : Bool :=
  match code with
  | none => false
  | some c => (!(c == 0)) && codes.contains c

/-- Embedding of the response handling of `main`: `changed` is true when
the substring "get" does not occur in the action, the result's `resp` is
run through `json.loads`, and the status code selects `exit_json` with
`changed`, `exit_json` with `changed=False`, or `fail_json`.  Returns the
terminal call together with the HTTP calls made. -/
def main_run (api : CentralApi) (jsonLoads : String → Option Value) (p : Params) :
    ModuleExit × List HttpCall :=
  let success_codes : List Int := [200, 201]
  let exit_codes : List Int := [304, 400, 404]
  let changed := !(py_in "get" p.action)
  match api_call api p with
  | .error e => (e, [])
  | .ok (result, calls) =>
    let resp := parse_resp jsonLoads result.resp
    if code_in result.code success_codes then
      (ModuleExit.exit_json changed resp result.code, calls)
    else if code_in result.code exit_codes then
      (ModuleExit.exit_json false resp result.code, calls)
    else
      (ModuleExit.fail_json false resp result.code, calls)

/-- A concrete client stub used to exercise the embedding on closed inputs:
every verb answers `200` with body "ok"; `get_url` returns the endpoint and
`get_list_params` comma-joins, matching the collaborator's documented
behaviour. -/
def stub_api : CentralApi :=
  ⟨fun endpoint _ => endpoint,
   fun items => String.intercalate "," items,
   fun _ _ => ⟨Value.str "ok", some 200⟩,
   fun _ _ _ => ⟨Value.str "ok", some 200⟩,
   fun _ _ _ => ⟨Value.str "ok", some 200⟩,
   fun _ _ => ⟨Value.str "ok", some 200⟩⟩

/-- A client stub whose every verb answers with the given status code. -/
def stub_api_code (c : Option Int) : CentralApi :=
  ⟨fun endpoint _ => endpoint,
   fun items => String.intercalate "," items,
   fun _ _ => ⟨Value.str "ok", c⟩,
   fun _ _ _ => ⟨Value.str "ok", c⟩,
   fun _ _ _ => ⟨Value.str "ok", c⟩,
   fun _ _ => ⟨Value.str "ok", c⟩⟩

/-! Theorems about the embedding, one per claim C1 through C10. -/

/-- Helper for claim C7: `remove_nulls` is idempotent. -/
theorem remove_nulls_idem (d : List (String × Value)) :
    remove_nulls (remove_nulls d) = remove_nulls d := by
  induction d using remove_nulls.induct with
  | case1 => simp [remove_nulls]
  | case2 _ rest ih => simp [remove_nulls, ih]
  | case3 key dd rest ih1 ih2 => simp [remove_nulls, ih1, ih2]
  | case4 key v rest h1 h2 ih => cases v <;> simp_all [remove_nulls]

/-- Helper for claim C7: after `remove_nulls` no entry, at any nesting
depth through sub-dicts, has a `null` value. -/
theorem remove_nulls_no_null (d : List (String × Value)) :
    no_null_entries (remove_nulls d) = true := by
  induction d using remove_nulls.induct with
  | case1 => simp [remove_nulls, no_null_entries]
  | case2 _ rest ih => simp [remove_nulls, ih]
  | case3 key dd rest ih1 ih2 => simp [remove_nulls, no_null_entries, ih1, ih2]
  | case4 key v rest h1 h2 ih => cases v <;> simp_all [remove_nulls, no_null_entries]

/-- Helper for claim C7: `remove_nulls` keeps every non-null non-dict
entry, so falsy values such as `0`, `false` and `""` survive pruning. -/
theorem remove_nulls_mem (d : List (String × Value)) (k : String) (v : Value)
    (hm : (k, v) ∈ d) (h1 : v.isNull = false) (h2 : v.isDict = false) :
    (k, v) ∈ remove_nulls d := by
  induction d with
  | nil => cases hm
  | cons hd tl ih =>
    obtain ⟨hk, hv⟩ := hd
    rcases List.mem_cons.mp hm with heq | hmem
    · cases heq
      cases v <;> simp_all [remove_nulls, Value.isNull, Value.isDict]
    · cases hv <;> simp [remove_nulls] <;>
        first
          | exact ih hmem
          | exact Or.inr (ih hmem)

/-- Claim C7 — `remove_nulls` is idempotent, removes null-valued mapping
entries at every nesting depth, and preserves every non-null non-dict
value, in particular the falsy values `0`, `false` and the empty string. -/
theorem remove_nulls_spec (d : List (String × Value)) :
    remove_nulls (remove_nulls d) = remove_nulls d ∧
    no_null_entries (remove_nulls d) = true ∧
    ∀ k v, (k, v) ∈ d → v.isNull = false → v.isDict = false →
      (k, v) ∈ remove_nulls d :=
  ⟨remove_nulls_idem d, remove_nulls_no_null d,
   fun k v hm h1 h2 => remove_nulls_mem d k v hm h1 h2⟩

/-- Claim C7, witness — the specification of `remove_nulls` evaluated on a
concrete dict holding the falsy values `0`, `false` and `""` next to a
null entry. -/
theorem remove_nulls_spec_witness :
    remove_nulls (remove_nulls
        [("zero", Value.int 0), ("flag", Value.bool false),
         ("empty", Value.str ""), ("gone", Value.null)]) =
      remove_nulls
        [("zero", Value.int 0), ("flag", Value.bool false),
         ("empty", Value.str ""), ("gone", Value.null)] ∧
    no_null_entries (remove_nulls
        [("zero", Value.int 0), ("flag", Value.bool false),
         ("empty", Value.str ""), ("gone", Value.null)]) = true ∧
    ("zero", Value.int 0) ∈ remove_nulls
        [("zero", Value.int 0), ("flag", Value.bool false),
         ("empty", Value.str ""), ("gone", Value.null)] :=
  ⟨(remove_nulls_spec _).1, (remove_nulls_spec _).2.1,
   (remove_nulls_spec _).2.2 "zero" (Value.int 0) (List.Mem.head _) rfl rfl⟩

/-- Claim C1 — for every result a handler returns to `main`, classification
is a total function of the status code: 200 and 201 exit with the
`changed` flag and the response body, 304, 400 and 404 exit with
`changed=False` and the body, and every other integer status fails the
module with the body.  The three guards partition the integers, so each
status code selects exactly one outcome. -/
theorem response_classification_total
    (api : CentralApi) (jsonLoads : String → Option Value) (p : Params)
    (result : ApiResult) (calls : List HttpCall) (c : Int)
    (hok : api_call api p = Except.ok (result, calls))
    (hc : result.code = some c) :
    ((c = 200 ∨ c = 201) →
      main_run api jsonLoads p =
        (ModuleExit.exit_json (!(py_in "get" p.action))
          (parse_resp jsonLoads result.resp) (some c), calls)) ∧
    ((c = 304 ∨ c = 400 ∨ c = 404) →
      main_run api jsonLoads p =
        (ModuleExit.exit_json false (parse_resp jsonLoads result.resp) (some c), calls)) ∧
    (c ≠ 200 → c ≠ 201 → c ≠ 304 → c ≠ 400 → c ≠ 404 →
      main_run api jsonLoads p =
        (ModuleExit.fail_json false (parse_resp jsonLoads result.resp) (some c), calls)) := by
  refine ⟨?_, ?_, ?_⟩
  · rintro (rfl | rfl) <;> simp [main_run, hok, hc, code_in]
  · rintro (rfl | rfl | rfl) <;> simp [main_run, hok, hc, code_in]
  · intro h200 h201 h304 h400 h404
    have hs : code_in (some c) [200, 201] = false := by
      simp [code_in, List.contains]
      omega
    have he : code_in (some c) [304, 400, 404] = false := by
      simp [code_in, List.contains]
      omega
    simp [main_run, hok, hc, hs, he]

/-- Claim C1, witness — classification evaluated on a concrete `get_groups`
invocation whose stubbed client answers 200. -/
theorem response_classification_total_witness :
    main_run stub_api (fun _ => none) ⟨"get_groups", none, none, none, none, 20, 0⟩ =
      (ModuleExit.exit_json false (Value.str "ok") (some 200),
       [⟨"get", "/configuration/v2/groups", ⟨false, "get"⟩, none⟩]) :=
  (response_classification_total stub_api (fun _ => none)
      ⟨"get_groups", none, none, none, none, 20, 0⟩
      ⟨Value.str "ok", some 200⟩
      [⟨"get", "/configuration/v2/groups", ⟨false, "get"⟩, none⟩]
      200 rfl rfl).1 (Or.inl rfl)

/-- Claim C2 — `action=create` with `group_name` and `group_attributes`
present dispatches to `create_group`, which issues exactly one POST to
`/configuration/v3/groups` whose body is the renamed attribute dict with
null-valued entries pruned by `remove_nulls` before sending; and in the
scenario `architecture=AOS10`, `device_type=["AccessPoints"]`, all other
group-properties inputs null, the transmitted `group_properties` contains
exactly the keys `AllowedDevTypes` and `Architecture`. -/
theorem create_group_request_shape
    (api : CentralApi) (gn : String) (hgn : gn ≠ "") (ga : GroupAttributes)
    (harch : ga.architecture = some "AOS10")
    (hdev : ga.device_type = some ["AccessPoints"])
    (hap : ga.ap_role = none) (hgw : ga.gw_role = none)
    (hsw : ga.switch_type = none) (hmon : ga.monitor_mode = none)
    (hnc : ga.new_central = none) :
    (∀ ga2 : GroupAttributes,
      (∀ gl cf lim off, api_call api ⟨"create", some gn, gl, some ga2, cf, lim, off⟩ =
        Except.ok (create_group api (some gn) (some ga2))) ∧
      create_group api (some gn) (some ga2) =
        (api.respond_post "/configuration/v3/groups" (get_headers false "post")
           (Value.dict (remove_nulls (create_body gn ga2))),
         [⟨"post", "/configuration/v3/groups", get_headers false "post",
           some (Value.dict (remove_nulls (create_body gn ga2)))⟩])) ∧
    remove_nulls (create_body gn ga) =
      [("group", Value.str gn),
       ("group_attributes", Value.dict
         [("template_info", Value.dict
            [("Wired", Value.bool ga.template_info.wired),
             ("Wireless", Value.bool ga.template_info.wireless)]),
          ("group_properties", Value.dict
            [("AllowedDevTypes", Value.list [Value.str "AccessPoints"]),
             ("Architecture", Value.str "AOS10")])])] := by
  have hb : (gn == "") = false := beq_eq_false_iff_ne.mpr hgn
  constructor
  · intro ga2
    constructor
    · intro gl cf lim off
      rfl
    · simp [create_group, hb]
  · simp [create_body, harch, hdev, hap, hgw, hsw, hmon, hnc,
      remove_nulls, opt_str_val, opt_str_list_val]

/-- Claim C2, witness — the create request evaluated for the spec's
scenario group `new-test-group` with `architecture=AOS10` and
`device_type=["AccessPoints"]`. -/
theorem create_group_request_shape_witness :
    create_group stub_api (some "new-test-group")
        (some ⟨⟨false, false⟩, some "AOS10", some ["AccessPoints"], none, none, none, none, none⟩) =
      (stub_api.respond_post "/configuration/v3/groups" (get_headers false "post")
         (Value.dict (remove_nulls (create_body "new-test-group"
           ⟨⟨false, false⟩, some "AOS10", some ["AccessPoints"], none, none, none, none, none⟩))),
       [⟨"post", "/configuration/v3/groups", get_headers false "post",
         some (Value.dict (remove_nulls (create_body "new-test-group"
           ⟨⟨false, false⟩, some "AOS10", some ["AccessPoints"], none, none, none, none, none⟩)))⟩]) ∧
    remove_nulls (create_body "new-test-group"
        ⟨⟨false, false⟩, some "AOS10", some ["AccessPoints"], none, none, none, none, none⟩) =
      [("group", Value.str "new-test-group"),
       ("group_attributes", Value.dict
         [("template_info", Value.dict
            [("Wired", Value.bool false), ("Wireless", Value.bool false)]),
          ("group_properties", Value.dict
            [("AllowedDevTypes", Value.list [Value.str "AccessPoints"]),
             ("Architecture", Value.str "AOS10")])])] :=
  ⟨((create_group_request_shape stub_api "new-test-group" (by decide)
      ⟨⟨false, false⟩, some "AOS10", some ["AccessPoints"], none, none, none, none, none⟩
      rfl rfl rfl rfl rfl rfl rfl).1
      ⟨⟨false, false⟩, some "AOS10", some ["AccessPoints"], none, none, none, none, none⟩).2,
   (create_group_request_shape stub_api "new-test-group" (by decide)
      ⟨⟨false, false⟩, some "AOS10", some ["AccessPoints"], none, none, none, none, none⟩
      rfl rfl rfl rfl rfl rfl rfl).2⟩

/-- Claim C3 — for every action with required fields, an absent (`None`)
required field makes the handler return the canned `error_msg` record with
code 400 and make zero HTTP client calls; in particular `clone` with
`group_name` set but `clone_from_group` absent. -/
theorem missing_required_field_no_call (api : CentralApi)
    (gn cf : Option String) (ga : Option GroupAttributes) :
    get_group_mode api none = (error_msg "get", []) ∧
    clone api gn none = (error_msg "clone", []) ∧
    clone api none cf = (error_msg "clone", []) ∧
    create_group api gn none = (error_msg "create", []) ∧
    create_group api none ga = (error_msg "create", []) ∧
    update_group api gn none = (error_msg "update", []) ∧
    update_group api none ga = (error_msg "update", []) ∧
    delete_group api none = (error_msg "delete", []) ∧
    (error_msg "get").code = some 400 ∧
    (error_msg "clone").code = some 400 ∧
    (error_msg "create").code = some 400 ∧
    (error_msg "update").code = some 400 ∧
    (error_msg "delete").code = some 400 := by
  refine ⟨rfl, ?_, rfl, ?_, rfl, ?_, rfl, rfl, rfl, rfl, rfl, rfl, rfl⟩ <;>
    cases gn <;> rfl

/-- Claim C4, counterexample — the validation error for a missing
`group_list` does carry code 400, but its message text is
"List of groups (group_list) not present in the playbook", not the exact
text "List of groups not present" the claim states. -/
theorem get_group_mode_message_counterexample :
    (get_group_mode stub_api none).1.code = some 400 ∧
    (get_group_mode stub_api none).1.resp =
      Value.str "List of groups (group_list) not present in the playbook" ∧
    "List of groups (group_list) not present in the playbook" ≠
      "List of groups not present" :=
  ⟨rfl, rfl, by decide⟩

/-- Claim C4, amended — `get_group_mode` with `group_list` absent returns
code 400 and exactly the message
"List of groups (group_list) not present in the playbook". -/
theorem get_group_mode_missing_list (api : CentralApi) :
    get_group_mode api none =
      (⟨Value.str "List of groups (group_list) not present in the playbook",
        some 400⟩, []) := rfl

/-- Claim C5, counterexample — an empty `group_list` for `get_group_mode`
and an empty `clone_from_group` string for `clone` are not rejected: both
reach the HTTP client (one call each), because the guards only test
`is not None`. -/
theorem empty_required_fields_counterexample :
    (get_group_mode stub_api (some [])).2.length = 1 ∧
    (clone stub_api (some "new-group") (some "")).2.length = 1 :=
  ⟨rfl, rfl⟩

/-- Claim C5, amended — the handlers reject absent (`None`) required
fields, and `clone` also rejects a falsy empty `group_name`, before any
HTTP call; but an empty `group_list` for `get_group_mode` and an empty
`clone_from_group` string for `clone` pass validation and produce an HTTP
call. -/
theorem required_presence_is_none_check (api : CentralApi) (gn : String)
    (hgn : gn ≠ "") (ga : GroupAttributes) :
    get_group_mode api none = (error_msg "get", []) ∧
    clone api none (some gn) = (error_msg "clone", []) ∧
    clone api (some gn) none = (error_msg "clone", []) ∧
    clone api (some "") (some gn) = (error_msg "clone", []) ∧
    create_group api none (some ga) = (error_msg "create", []) ∧
    create_group api (some gn) none = (error_msg "create", []) ∧
    create_group api (some "") (some ga) = (error_msg "create", []) ∧
    update_group api none (some ga) = (error_msg "update", []) ∧
    update_group api (some gn) none = (error_msg "update", []) ∧
    update_group api (some "") (some ga) = (error_msg "update", []) ∧
    delete_group api none = (error_msg "delete", []) ∧
    (get_group_mode api (some [])).2.length = 1 ∧
    (clone api (some gn) (some "")).2.length = 1 := by
  have hb : (gn == "") = false := beq_eq_false_iff_ne.mpr hgn
  refine ⟨rfl, rfl, rfl, rfl, rfl, rfl, rfl, rfl, rfl, rfl, rfl, rfl, ?_⟩
  simp [clone, hb]

/-- Claim C5, witness — the amended presence checks evaluated at the group
name "other" and a concrete attribute record. -/
theorem required_presence_is_none_check_witness :
    get_group_mode stub_api none = (error_msg "get", []) ∧
    clone stub_api none (some "other") = (error_msg "clone", []) ∧
    clone stub_api (some "other") none = (error_msg "clone", []) ∧
    clone stub_api (some "") (some "other") = (error_msg "clone", []) ∧
    create_group stub_api none
      (some ⟨⟨false, false⟩, none, some ["AccessPoints"], none, none, none, none, none⟩) =
      (error_msg "create", []) ∧
    create_group stub_api (some "other") none = (error_msg "create", []) ∧
    create_group stub_api (some "")
      (some ⟨⟨false, false⟩, none, some ["AccessPoints"], none, none, none, none, none⟩) =
      (error_msg "create", []) ∧
    update_group stub_api none
      (some ⟨⟨false, false⟩, none, some ["AccessPoints"], none, none, none, none, none⟩) =
      (error_msg "update", []) ∧
    update_group stub_api (some "other") none = (error_msg "update", []) ∧
    update_group stub_api (some "")
      (some ⟨⟨false, false⟩, none, some ["AccessPoints"], none, none, none, none, none⟩) =
      (error_msg "update", []) ∧
    delete_group stub_api none = (error_msg "delete", []) ∧
    (get_group_mode stub_api (some [])).2.length = 1 ∧
    (clone stub_api (some "other") (some "")).2.length = 1 :=
  required_presence_is_none_check stub_api "other" (by decide)
    ⟨⟨false, false⟩, none, some ["AccessPoints"], none, none, none, none, none⟩

/-- Claim C6 — when the status code is 200 or 201 the invocation is
reported with `changed=True` exactly for the state-changing actions
`clone`, `update`, `create` and `delete`, and with `changed=False` for the
pure reads `get_groups` and `get_group_mode` (the source computes this by
testing whether the substring "get" occurs in the action). -/
theorem success_changed_iff_write_action
    (api : CentralApi) (jsonLoads : String → Option Value) (p : Params)
    (result : ApiResult) (calls : List HttpCall) (c : Int)
    (hact : p.action ∈
      ["get_groups", "get_group_mode", "clone", "update", "create", "delete"])
    (hok : api_call api p = Except.ok (result, calls))
    (hc : result.code = some c) (hsucc : c = 200 ∨ c = 201) :
    main_run api jsonLoads p =
      (ModuleExit.exit_json
        (decide (p.action ∈ (["clone", "update", "create", "delete"] : List String)))
        (parse_resp jsonLoads result.resp) (some c), calls) := by
  obtain ⟨act, gn, gl, ga, cf, lim, off⟩ := p
  simp only [List.mem_cons, List.not_mem_nil, or_false] at hact
  rcases hsucc with rfl | rfl <;>
    rcases hact with rfl | rfl | rfl | rfl | rfl | rfl <;>
      simp [main_run, hok, hc, code_in, py_in, contains_sub]

/-- Claim C6, witness — a successful `delete` (a state-changing action) is
reported with `changed=True`. -/
theorem success_changed_iff_write_action_witness :
    main_run (stub_api_code (some 200)) (fun _ => none)
        ⟨"delete", some "stale-group", none, none, none, 20, 0⟩ =
      (ModuleExit.exit_json true (Value.str "ok") (some 200),
       [⟨"delete", "/configuration/v1/groups/stale-group", ⟨false, "delete"⟩, none⟩]) :=
  success_changed_iff_write_action (stub_api_code (some 200)) (fun _ => none)
    ⟨"delete", some "stale-group", none, none, none, 20, 0⟩
    ⟨Value.str "ok", some 200⟩
    [⟨"delete", "/configuration/v1/groups/stale-group", ⟨false, "delete"⟩, none⟩]
    200 (by decide) rfl rfl (Or.inl rfl)

/-- Claim C8, counterexample — the action string "DELETE" lies outside the
enumerated lowercase action set, yet `api_call` lower-cases it and
dispatches the delete handler, which makes one HTTP call instead of
terminating with the unsupported-action failure. -/
theorem unsupported_action_counterexample :
    ("DELETE" ∉
      (["get_groups", "get_group_mode", "clone", "update", "create", "delete"] : List String)) ∧
    api_call stub_api ⟨"DELETE", some "stale-group", none, none, none, 20, 0⟩ =
      Except.ok (delete_group stub_api (some "stale-group")) ∧
    (delete_group stub_api (some "stale-group")).2.length = 1 :=
  ⟨by decide, rfl, rfl⟩

/-- Claim C8, amended — if the lower-cased action string lies outside the
enumerated set, `api_call` terminates the module with the fatal
"Unsupported action provided in playbook" failure and zero HTTP client
calls are made. -/
theorem unsupported_action_short_circuit
    (api : CentralApi) (jsonLoads : String → Option Value) (p : Params)
    (h : py_lower p.action ∉
      ["get_groups", "get_group_mode", "clone", "update", "create", "delete"]) :
    api_call api p =
      Except.error (ModuleExit.fail_msg false "Unsupported action provided in playbook") ∧
    main_run api jsonLoads p =
      (ModuleExit.fail_msg false "Unsupported action provided in playbook", []) := by
  simp only [List.mem_cons, List.mem_singleton, not_or] at h
  obtain ⟨h1, h2, h3, h4, h5, h6⟩ := h
  have hc : api_call api p =
      Except.error (ModuleExit.fail_msg false "Unsupported action provided in playbook") := by
    simp [api_call, h1, h2, h3, h4, h5, h6]
  exact ⟨hc, by simp [main_run, hc]⟩

/-- Claim C8, witness — the unsupported action "bogus" short-circuits with
the fatal failure and no HTTP call. -/
theorem unsupported_action_short_circuit_witness :
    api_call stub_api ⟨"bogus", none, none, none, none, 20, 0⟩ =
      Except.error (ModuleExit.fail_msg false "Unsupported action provided in playbook") ∧
    main_run stub_api (fun _ => none) ⟨"bogus", none, none, none, none, 20, 0⟩ =
      (ModuleExit.fail_msg false "Unsupported action provided in playbook", []) :=
  unsupported_action_short_circuit stub_api (fun _ => none) _ (by decide)

/-- Claim C9 — for every valid update invocation, `update_group` issues the
PATCH to `/configuration/v2/groups/{group_name}` with the verbatim
`group_attributes` body, but with headers obtained from `get_headers` for
the "post" method. -/
theorem update_group_patch_with_post_headers
    (api : CentralApi) (gn : String) (hgn : gn ≠ "") (ga : GroupAttributes) :
    update_group api (some gn) (some ga) =
      (api.respond_patch ("/configuration/v2/groups/" ++ gn)
        (get_headers false "post") ga.to_value,
       [⟨"patch", "/configuration/v2/groups/" ++ gn,
         get_headers false "post", some ga.to_value⟩]) ∧
    (get_headers false "post").http_method = "post" := by
  have hb : (gn == "") = false := beq_eq_false_iff_ne.mpr hgn
  exact ⟨by simp [update_group, hb], rfl⟩

/-- Claim C9, witness — the update request evaluated for the group
`new-test-group`. -/
theorem update_group_patch_with_post_headers_witness :
    update_group stub_api (some "new-test-group")
        (some ⟨⟨false, false⟩, none, some ["AccessPoints"], none, none, none, none, none⟩) =
      (stub_api.respond_patch "/configuration/v2/groups/new-test-group"
        (get_headers false "post")
        (GroupAttributes.to_value
          ⟨⟨false, false⟩, none, some ["AccessPoints"], none, none, none, none, none⟩),
       [⟨"patch", "/configuration/v2/groups/new-test-group",
         get_headers false "post",
         some (GroupAttributes.to_value
           ⟨⟨false, false⟩, none, some ["AccessPoints"], none, none, none, none, none⟩)⟩]) ∧
    (get_headers false "post").http_method = "post" :=
  update_group_patch_with_post_headers stub_api "new-test-group" (by decide) _

/-- Claim C10 — every local validation failure (a handler's canned
`error_msg` record, produced with zero HTTP calls) takes the same exit
path as a remote 304/400/404 response: the module exits successfully with
`changed=False` and the canned message as the result. -/
theorem validation_error_exit_path
    (api : CentralApi) (jsonLoads : String → Option Value) (p : Params)
    (m s : String)
    (hok : api_call api p = Except.ok (error_msg m, []))
    (hs : (error_msg m).resp = Value.str s)
    (hjson : jsonLoads s = none) :
    main_run api jsonLoads p =
      (ModuleExit.exit_json false (Value.str s) (some 400), []) := by
  have hcode : (error_msg m).code = some 400 := rfl
  simp [main_run, hok, hcode, code_in, hs, parse_resp, hjson]

/-- Claim C10, witness — a `delete` invocation with no `group_name` exits
with `changed=False`, code 400 and the canned message, without an HTTP
call. -/
theorem validation_error_exit_path_witness :
    main_run stub_api (fun _ => none) ⟨"delete", none, none, none, none, 20, 0⟩ =
      (ModuleExit.exit_json false
        (Value.str "Group name to be deleted not present in the playbook") (some 400), []) :=
  validation_error_exit_path stub_api (fun _ => none)
    ⟨"delete", none, none, none, none, 20, 0⟩ "delete"
    "Group name to be deleted not present in the playbook" rfl rfl rfl

end CentralGroups
